import Mathlib

/-!
Verification of the update-coordinator subsystem of the
`electron-menubar-app-boilerplate` repository.

The repository bundles several revisions of the same updater component.
This development embeds, faithfully to the TypeScript source:

* `VersionUtils` — the pure version comparator of
  `src/modules/updaterManager.ts` (lines 9-31).
* namespace `R1` — the GitHub-API coordinator revision of
  `src/modules/updaterManager.ts` (lines 47-243) together with the
  constants revision it constructs values of (`UpdateInfo` with a string
  `releaseNotes` field and the four-variant `UpdaterState`).
* namespace `SC` — the six-variant tagged-union `UpdaterState` of
  `src/shared/constants.ts` (lines 14-20).
* namespace `EH` — the `electron-updater` event-handler coordinator
  revision (the `UpdateStatus` record of boolean lifecycle flags, its
  `autoUpdater` event handlers, retry bookkeeping, startup rate limiting,
  release-note parsing), plus the renderer-side release-note display of
  `UpdateNotification.tsx`.

JavaScript string and number primitives used by that code (`parseInt`,
`split`, `trim`, `Math.round`) are modelled at the character-list level so
that every definition evaluates inside the kernel.
-/

/-- Numeric value of a run of decimal digit characters. -/
def digitsToNat (ds : List Char) : Nat :=
  ds.foldl (fun a c => a * 10 + (c.toNat - '0'.toNat)) 0

/-- JavaScript `parseInt(s, 10)`: skip leading whitespace, read an optional
sign and then the longest run of decimal digits; `none` models `NaN` (no
digits found). -/
def jsParseInt (cs : List Char) : Option Int :=
  let core : List Char → Option Nat := fun l =>
    let ds := l.takeWhile Char.isDigit
    if ds.isEmpty then none else some (digitsToNat ds)
  match cs.dropWhile Char.isWhitespace with
  | '-' :: rest => (core rest).map fun n => -(n : Int)
  | '+' :: rest => (core rest).map fun n => (n : Int)
  | rest => (core rest).map fun n => (n : Int)

/-- Models `parseInt(num, 10) || 0` — `NaN` collapses to `0` (and so does `-0`,
which is already `0` on `Int`). -/
def parseIntOr0 (cs : List Char) : Int :=
  (jsParseInt cs).getD 0

/-- JavaScript `String.prototype.split` with a one-character separator:
`"".split(sep)` is `[""]`, separators at the ends produce empty fields. -/
def splitOnChar (sep : Char) : List Char → List (List Char)
  | [] => [[]]
  | c :: cs =>
    if c = sep then [] :: splitOnChar sep cs
    else
      match splitOnChar sep cs with
      | [] => [[c]]
      | g :: gs => (c :: g) :: gs

/-- JavaScript `String.prototype.trim`: drop whitespace from both ends. -/
def trimChars (cs : List Char) : List Char :=
  ((cs.dropWhile Char.isWhitespace).reverse.dropWhile Char.isWhitespace).reverse

/-- JavaScript `Math.round`: round half away from zero upwards,
`Math.round(x) = ⌊x + 1/2⌋`. -/
def jsRound (q : ℚ) : Int :=
  ⌊q + 1 / 2⌋

namespace VersionUtils

/-- Models `version.replace` of the `/^v/` pattern — remove a single leading literal `v`. -/
def stripLeadingV (s : String) : String :=
  match s.data with
  | 'v' :: rest => ⟨rest⟩
  | _ => s

/-- Source `VersionUtils.parseVersion` (`src/modules/updaterManager.ts` 9-14):
strip one leading `v`, split on `.`, `parseInt(seg, 10) || 0` each segment. -/
def parseVersion (version : String) : List Int :=
  (splitOnChar '.' (stripLeadingV version).data).map parseIntOr0

/-- The `for` loop of `isNewerVersion` (lines 22-28): at index `i`,
`currentParts[i] || 0` versus `latestParts[i] || 0`; first strictly larger
latest segment returns `true`, first strictly smaller returns `false`. -/
def isNewerLoop (currentParts latestParts : List Int) : Nat → Nat → Bool
  | 0, _ => false
  | fuel + 1, i =>
    if currentParts.getD i 0 < latestParts.getD i 0 then true
    else if latestParts.getD i 0 < currentParts.getD i 0 then false
    else isNewerLoop currentParts latestParts fuel (i + 1)

/-- Source `VersionUtils.isNewerVersion` (lines 16-31). -/
def isNewerVersion (current latest : String) : Bool :=
  let currentParts := parseVersion current
  let latestParts := parseVersion latest
  isNewerLoop currentParts latestParts (max currentParts.length latestParts.length) 0

end VersionUtils

/-- The normalization as the specification sentence describes it, for
comparison with the source: strip the (maximal) leading non-numeric prefix
and parse each segment as `0` unless it is entirely numeric. -/
def parseVersionSpecText (version : String) : List Int :=
  (splitOnChar '.' (version.data.dropWhile fun c => ¬ c.isDigit)).map fun seg =>
    if seg ≠ [] ∧ seg.all Char.isDigit then (digitsToNat seg : Int) else 0

/-- The `isNewer` comparison as described by the specification sentence, built on
`parseVersionSpecText` with the same zero-padded segment loop. -/
def isNewerVersionSpecText (current latest : String) : Bool :=
  let c := parseVersionSpecText current
  let l := parseVersionSpecText latest
  VersionUtils.isNewerLoop c l (max c.length l.length) 0

/-! ## The GitHub-API coordinator revision (`src/modules/updaterManager.ts`) -/

namespace R1

/-- One element of `GitHubRelease.assets`. -/
structure GitHubAsset where
  name : String
  browser_download_url : String
deriving DecidableEq

/-- The `GitHubRelease` payload shape (lines 35-45). -/
structure GitHubRelease where
  tag_name : String
  name : String
  published_at : String
  body : String
  html_url : String
  assets : List GitHubAsset
deriving DecidableEq

/-- The `UpdateInfo` shape of the constants revision this coordinator constructs
(string release notes, download URLs). -/
structure UpdateInfo where
  version : String
  releaseDate : String
  releaseNotes : String
  downloadUrl : String
  browserDownloadUrl : String
deriving DecidableEq

/-- The four-variant `UpdaterState` paired with this coordinator revision. -/
inductive UpdaterState where
  | idle
  | checking
  | available (info : UpdateInfo)
  | error (error : String)
deriving DecidableEq

/-- Source `getCurrentVersion` (lines 60-69). The argument models the result of
reading `package.json`: `none` when `readFileSync`/`JSON.parse` threw (the
`catch` branch), otherwise the `version` field, itself `none`/empty when
absent (the `|| '0.0.0'` fallback). -/
def getCurrentVersion (readPackageJson : Option (Option String)) : String :=
  match readPackageJson with
  | none => "0.0.0"
  | some none => "0.0.0"
  | some (some ver) => if ver = "" then "0.0.0" else ver

/-- Header removal in `parseReleaseNotes`, the global replace of 1-6 hash
marks plus following whitespace: every `#` is removed
together with the whitespace run that follows a `#` group. -/
def stripHeaders : List Char → List Char
  | [] => []
  | c :: cs =>
    if c = '#' then stripHeaders (cs.dropWhile Char.isWhitespace)
    else c :: stripHeaders cs
termination_by l => l.length
decreasing_by
  · have := (List.dropWhile_sublist (l := cs) Char.isWhitespace).length_le
    simp only [List.length_cons]
    omega
  · simp only [List.length_cons]
    omega

/-- Link collapsing in `parseReleaseNotes`, the global replace of a
bracketed text plus parenthesised URL by the text alone: collapse markdown links to their text.
The fuel argument (initialised to the input length) only bounds recursion;
every step consumes at least one character. -/
def collapseLinks : Nat → List Char → List Char
  | 0, cs => cs
  | _ + 1, [] => []
  | fuel + 1, c :: cs =>
    if c = '[' then
      match cs.dropWhile (· ≠ ']') with
      | ']' :: '(' :: cs2 =>
        match cs2.dropWhile (· ≠ ')') with
        | ')' :: cs3 =>
          if cs.takeWhile (· ≠ ']') ≠ [] ∧ cs2.takeWhile (· ≠ ')') ≠ [] then
            cs.takeWhile (· ≠ ']') ++ collapseLinks fuel cs3
          else c :: collapseLinks fuel cs
        | _ => c :: collapseLinks fuel cs
      | _ => c :: collapseLinks fuel cs
    else c :: collapseLinks fuel cs

/-- Source `parseReleaseNotes` (lines 169-182): markdown cleanup, `trim`, first 500
characters, with a trailing ellipsis when the original body is longer. -/
def parseReleaseNotes (body : String) : String :=
  if body = "" then "No release notes available."
  else
    let afterStars := (stripHeaders body.data).filter (· ≠ '*')
    let cleaned := collapseLinks afterStars.length afterStars
    ⟨(trimChars cleaned).take 500 ++ (if 500 < body.data.length then "...".data else [])⟩

/-- Models `new Date(published_at).toLocaleDateString()` — an external JavaScript
Date API; modelled as the raw date string (no claim depends on its format). -/
def toLocaleDateString (published_at : String) : String :=
  published_at

/-- The `UpdateInfo` constructed in `checkForUpdates` (lines 206-216);
`assets[0]?.browser_download_url || html_url` falls back to the release page
when there is no asset or its URL is empty. -/
def buildUpdateInfo (r : GitHubRelease) : UpdateInfo :=
  { version := r.tag_name
    releaseDate := toLocaleDateString r.published_at
    releaseNotes := parseReleaseNotes r.body
    downloadUrl := r.html_url
    browserDownloadUrl :=
      match r.assets with
      | a :: _ => if a.browser_download_url ≠ "" then a.browser_download_url else r.html_url
      | [] => r.html_url }

/-- Outcome of `fetchLatestRelease` as seen by `checkForUpdates`: a release,
a `null` body, or a thrown error (no repo URL, bad URL, HTTP or network
failure — every throwing path carries a message). -/
inductive FetchResult where
  | ok (release : GitHubRelease)
  | okNull
  | throws (msg : String)
deriving DecidableEq

/-- Result of one `checkForUpdates` call (lines 190-232): the final
broadcast state, whether `saveLastCheckTime` ran (persisting
`lastUpdateCheck`), and the `{success, error}` envelope returned to the
caller.  The function is total: the `try`/`catch` converts every throw into
the `error` state plus a `success: false` envelope. -/
structure CheckResult where
  state : UpdaterState
  savedLastCheck : Bool
  success : Bool
  error : Option String
deriving DecidableEq

/-- Source `checkForUpdates` (lines 190-232).  It first broadcasts `checking`, then
resolves the fetch; on a throw the `catch` branch runs (no persistence). -/
def checkForUpdates (currentVersion : String) (fetch : FetchResult) : CheckResult :=
  match fetch with
  | .throws msg =>
    { state := .error msg, savedLastCheck := false, success := false, error := some msg }
  | .okNull =>
    { state := .idle, savedLastCheck := true, success := true, error := none }
  | .ok r =>
    if VersionUtils.isNewerVersion currentVersion r.tag_name then
      { state := .available (buildUpdateInfo r), savedLastCheck := true
        success := true, error := none }
    else
      { state := .idle, savedLastCheck := true, success := true, error := none }

end R1

/-! ## The six-variant tagged union of `src/shared/constants.ts` -/

namespace SC

/-- The `UpdateInfo` of `src/shared/constants.ts` (lines 7-12). -/
structure UpdateInfo where
  version : String
  releaseDate : String
  releaseNotes : List String
  downloadedFile : Option String := none
deriving DecidableEq

/-- The `UpdaterState` of `src/shared/constants.ts` (lines 14-20): a tagged
union whose `status` discriminant is one of six literal tags. -/
inductive UpdaterState where
  | idle
  | checking
  | available (info : UpdateInfo)
  | downloading (progress : Int) (info : UpdateInfo)
  | downloaded (info : UpdateInfo)
  | error (error : String)
deriving DecidableEq

/-- The `status` discriminant string of an `UpdaterState` value. -/
def UpdaterState.statusTag : UpdaterState → String
  | .idle => "idle"
  | .checking => "checking"
  | .available _ => "available"
  | .downloading _ _ => "downloading"
  | .downloaded _ => "downloaded"
  | .error _ => "error"

/-- The six lifecycle tags, in declaration order. -/
def statusTags : List String :=
  ["idle", "checking", "available", "downloading", "downloaded", "error"]

end SC

/-! ## The `electron-updater` event-handler coordinator revision

The revision driven by `autoUpdater` events: an `UpdateStatus` record of
boolean lifecycle flags, mutated by the `setupEventHandlers` callbacks and
the public methods, broadcast to every window after each mutation. -/

namespace EH

/-- The `UpdateInfo` of this revision (string-list release notes plus the
downloaded file path). -/
structure UpdateInfo where
  version : String
  releaseDate : String
  releaseNotes : List String
  downloadedFile : Option String := none
deriving DecidableEq

/-- The `UpdateStatus` record: independent boolean lifecycle flags plus
optional error, progress, info and retry count.  This whole record is the
broadcast payload (`sendStatusToRenderer`). -/
structure UpdateStatus where
  checking : Bool
  available : Bool
  downloading : Bool
  downloaded : Bool
  error : Option String := none
  progress : Option Int := none
  updateInfo : Option UpdateInfo := none
  retryCount : Nat := 0
deriving DecidableEq

/-- The constructor-time initial status: all flags `false`, retry count 0. -/
def initialStatus : UpdateStatus :=
  { checking := false, available := false, downloading := false, downloaded := false
    retryCount := 0 }

/-- Constant `CHECK_INTERVAL_24H = 24 * 60 * 60 * 1000` (ms). -/
def CHECK_INTERVAL_24H : Int := 24 * 60 * 60 * 1000

/-- Constant `MAX_RETRY_ATTEMPTS = 3`. -/
def MAX_RETRY_ATTEMPTS : Nat := 3

/-- Constant `RETRY_DELAY = 5000` (ms). -/
def RETRY_DELAY : Nat := 5000

/-- The 10-second startup delay of `scheduleStartupCheck`. -/
def STARTUP_CHECK_DELAY : Nat := 10000

/-- The evolving error message written by `handleRetry`. -/
def retryMessage (retryCount : Nat) : String :=
  "Retrying... (" ++ toString retryCount ++ "/" ++ toString MAX_RETRY_ATTEMPTS ++ ")"

/-- Result of a step that may arm the retry timer: the new broadcast status
and the delay of the scheduled `checkForUpdates` retry, if one was armed. -/
structure RetryResult where
  status : UpdateStatus
  scheduledRetryDelay : Option Nat
deriving DecidableEq

/-- Source `handleRetry`: give up once `retryCount` (when non-zero, mirroring the
JavaScript truthiness test) has reached `MAX_RETRY_ATTEMPTS`; otherwise
increment it, surface a `Retrying...` message and arm a retry after
`RETRY_DELAY`. -/
def handleRetry (s : UpdateStatus) : RetryResult :=
  if s.retryCount ≠ 0 ∧ MAX_RETRY_ATTEMPTS ≤ s.retryCount then
    { status := s, scheduledRetryDelay := none }
  else
    { status := { s with retryCount := s.retryCount + 1
                         error := some (retryMessage (s.retryCount + 1)) }
      scheduledRetryDelay := some RETRY_DELAY }

/-- The `checking-for-update` handler. -/
def onCheckingForUpdate (s : UpdateStatus) : UpdateStatus :=
  { s with checking := true, error := none }

/-- The `update-available` handler (including the release-notes continuation
that fills `updateInfo`): clears `checking`, sets `available`, resets
`retryCount` to 0. -/
def onUpdateAvailable (s : UpdateStatus) (version releaseDate : String)
    (releaseNotes : List String) : UpdateStatus :=
  { s with checking := false, available := true, retryCount := 0
           updateInfo := some { version := version, releaseDate := releaseDate
                                releaseNotes := releaseNotes } }

/-- The `update-not-available` handler: clears `checking` and `available`,
resets `retryCount` to 0 (the persistence side runs `saveLastCheckTime`). -/
def onUpdateNotAvailable (s : UpdateStatus) : UpdateStatus :=
  { s with checking := false, available := false, retryCount := 0 }

/-- The `download-progress` handler: sets `downloading` and publishes
`Math.round(progressObj.percent)`. -/
def onDownloadProgress (s : UpdateStatus) (percent : ℚ) : UpdateStatus :=
  { s with downloading := true, progress := some (jsRound percent) }

/-- The `update-downloaded` handler: clears `downloading`, sets `downloaded`,
merges `updateInfo` keeping previous release notes (`|| []`). -/
def onUpdateDownloaded (s : UpdateStatus) (version releaseDate : String)
    (downloadedFile : Option String) : UpdateStatus :=
  { s with downloading := false, downloaded := true
           updateInfo := some { version := version, releaseDate := releaseDate
                                releaseNotes := (s.updateInfo.map (·.releaseNotes)).getD []
                                downloadedFile := downloadedFile } }

/-- The `error` handler: clears the in-flight flags, records the message and
runs `handleRetry`. -/
def onError (s : UpdateStatus) (msg : String) : RetryResult :=
  handleRetry { s with checking := false, downloading := false, error := some msg }

/-- Result of one public `checkForUpdates` call up to the point where the
remote call is issued (its completion arrives later as an `autoUpdater`
event): the broadcast status and whether `autoUpdater.checkForUpdates()`
was invoked. -/
structure CheckCall where
  status : UpdateStatus
  remoteCheckIssued : Bool
deriving DecidableEq

/-- Public `checkForUpdates` (lines 329-360 of the event revision): no-op
when already `checking`; record an error and stop when the connectivity
preflight fails; otherwise broadcast `checking := true`, clear the error
and issue the remote call. -/
def checkForUpdates (s : UpdateStatus) (networkOk : Bool) : CheckCall :=
  if s.checking then { status := s, remoteCheckIssued := false }
  else if !networkOk then
    { status := { s with error := some "No network connection available" }
      remoteCheckIssued := false }
  else
    { status := { s with checking := true, error := none }, remoteCheckIssued := true }

/-- Public `downloadUpdate`: awaits `autoUpdater.downloadUpdate()`; its
`catch` records the failure message in the broadcast status (the function
returns no envelope). -/
def downloadUpdate (s : UpdateStatus) (outcome : Except String Unit) : UpdateStatus :=
  match outcome with
  | .ok _ => s
  | .error msg => { s with error := some msg }

/-- Public `installUpdate` (lines 399-401): `autoUpdater.quitAndInstall()`
with no `try`/`catch` — the outcome, including a thrown error, is exactly
what the caller observes. -/
def installUpdate (quitAndInstall : Except String Unit) : Except String Unit :=
  quitAndInstall

/-- Source `shouldCheckForUpdates`: 24 hours must have elapsed since the persisted
last check time. -/
def shouldCheckForUpdates (now lastCheckTime : Int) : Bool :=
  decide (CHECK_INTERVAL_24H ≤ now - lastCheckTime)

/-- Source `scheduleStartupCheck`: with the auto policy enabled, arm a 10-second
startup check only when the 24-hour interval has elapsed; otherwise issue
no remote call at all.  Returns the armed delay. -/
def scheduleStartupCheck (autoCheckDownloadAndInstall : Bool)
    (now lastCheckTime : Int) : Option Nat :=
  if autoCheckDownloadAndInstall then
    if shouldCheckForUpdates now lastCheckTime then some STARTUP_CHECK_DELAY
    else none
  else none

/-- The fallback of `parseReleaseNotes`: one entry naming the version. -/
def fallbackNotes (version : String) : List String :=
  ["Version " ++ version ++ " is now available."]

/-- Source `parseReleaseNotes` of the event revision (lines 258-280), body path:
a fetched release body is split on newlines, trimmed, empty lines dropped;
a missing (`none`) or empty body falls back to `fallbackNotes`. -/
def parseReleaseNotes (body : Option String) (version : String) : List String :=
  match body with
  | some b =>
    if b ≠ "" then
      (((splitOnChar '\n' b.data).map trimChars).filter fun line => 0 < line.length).map
        fun line => (⟨line⟩ : String)
    else fallbackNotes version
  | none => fallbackNotes version

/-- The 60-character preview truncation of `UpdateNotification.tsx`. -/
def truncateNote (note : String) : String :=
  if 60 < note.data.length then ⟨note.data.take 60 ++ "...".data⟩ else note

/-- The release-notes list rendered by `UpdateNotification.tsx`
(lines 68-84): when non-empty, the first three entries (truncated) plus a
synthesized `+N more changes...` entry when more than three exist. -/
def renderNotesList (releaseNotes : List String) : List String :=
  if 0 < releaseNotes.length then
    (releaseNotes.take 3).map truncateNote ++
      (if 3 < releaseNotes.length then
        ["+" ++ toString (releaseNotes.length - 3) ++ " more changes..."]
      else [])
  else []

/-- The integer progress percentages published during one download episode
in which the transport reports the given `percent` values in order. -/
def publishedProgress (percents : List ℚ) : List Int :=
  percents.map jsRound

/-- One externally visible stimulus: an `autoUpdater` event or a public
method call. -/
inductive UEvent where
  | checkingForUpdate
  | updateAvailable (version releaseDate : String) (releaseNotes : List String)
  | updateNotAvailable
  | downloadProgress (percent : ℚ)
  | updateDownloaded (version releaseDate : String) (downloadedFile : Option String)
  | errorEvent (msg : String)
  | publicCheck (networkOk : Bool)

/-- The status transition performed by one stimulus. -/
def step (s : UpdateStatus) : UEvent → UpdateStatus
  | .checkingForUpdate => onCheckingForUpdate s
  | .updateAvailable v d n => onUpdateAvailable s v d n
  | .updateNotAvailable => onUpdateNotAvailable s
  | .downloadProgress p => onDownloadProgress s p
  | .updateDownloaded v d f => onUpdateDownloaded s v d f
  | .errorEvent m => (onError s m).status
  | .publicCheck ok => (checkForUpdates s ok).status

/-- Run a sequence of stimuli from a starting status. -/
def runEvents (s : UpdateStatus) (events : List UEvent) : UpdateStatus :=
  events.foldl step s

end EH

/-- The persisted policy fields the updater reads and writes through the
external settings store: the deferral flag consulted by the
`useUpdateStatus` hook and the last successful check timestamp. -/
structure PolicySettings where
  updateDeferred : Bool
  lastUpdateCheck : Int
deriving DecidableEq

namespace EH

/-- The `update-downloaded` handler together with its persistence effect:
the status mutation of `onUpdateDownloaded` plus `saveLastCheckTime`
(which overwrites only `lastUpdateCheck` in the merged settings).  No
handler in this revision writes `updateDeferred`. -/
def onUpdateDownloadedPersist (s : UpdateStatus) (p : PolicySettings) (now : Int)
    (version releaseDate : String) (downloadedFile : Option String) :
    UpdateStatus × PolicySettings :=
  (onUpdateDownloaded s version releaseDate downloadedFile
    , { p with lastUpdateCheck := now })

/-- Modelled from the spec: the main-process `deferUpdate` IPC handler is
not under `src/` (only its renderer-side caller in the `useUpdateStatus`
hook is).  Per the specification it `sets policy.updateDeferred = true and
persists it. Does not change UpdateState itself`. -/
def deferUpdate (p : PolicySettings) (s : UpdateStatus) : PolicySettings × UpdateStatus :=
  ({ p with updateDeferred := true }, s)

end EH

/-- Milliseconds in one hour, for the rate-limiting scenarios. -/
def hourMs : Int := 60 * 60 * 1000

/-- A fully realistic stimulus sequence: a check finds an update, the
download completes, then the user triggers a manual check. -/
def c1BadTrace : List EH.UEvent :=
  [EH.UEvent.checkingForUpdate,
   EH.UEvent.updateAvailable "2.0.0" "2025-01-02" ["notes"],
   EH.UEvent.updateDownloaded "2.0.0" "2025-01-02" (some "update.zip"),
   EH.UEvent.publicCheck true]

/-! ## Properties of the version comparator -/

/-- The comparison loop returns `true` exactly when some in-range index has
a strictly larger latest segment and all earlier indices agree (both sides
zero-padded via `getD`). -/
theorem isNewerLoop_true_iff (cur lat : List Int) :
    ∀ (fuel i : Nat),
      VersionUtils.isNewerLoop cur lat fuel i = true ↔
        ∃ k, k < fuel ∧ cur.getD (i + k) 0 < lat.getD (i + k) 0 ∧
          ∀ j, j < k → cur.getD (i + j) 0 = lat.getD (i + j) 0 := by
  intro fuel
  induction fuel with
  | zero =>
    intro i
    simp [VersionUtils.isNewerLoop]
  | succ n ih =>
    intro i
    rw [VersionUtils.isNewerLoop]
    rcases lt_trichotomy (cur.getD i 0) (lat.getD i 0) with h1 | h1 | h1
    · rw [if_pos h1]
      constructor
      · intro _
        exact ⟨0, Nat.succ_pos n, by simpa using h1, fun j hj => absurd hj (Nat.not_lt_zero j)⟩
      · intro _
        rfl
    · have hnlt1 : ¬ cur.getD i 0 < lat.getD i 0 := by omega
      have hnlt2 : ¬ lat.getD i 0 < cur.getD i 0 := by omega
      rw [if_neg hnlt1, if_neg hnlt2, ih (i + 1)]
      constructor
      · rintro ⟨k, hk, hlt, heq⟩
        refine ⟨k + 1, by omega, ?_, ?_⟩
        · have hidx : i + (k + 1) = i + 1 + k := by omega
          rw [hidx]
          exact hlt
        · intro j hj
          cases j with
          | zero => simpa using h1
          | succ m =>
            have hidx : i + (m + 1) = i + 1 + m := by omega
            rw [hidx]
            exact heq m (by omega)
      · rintro ⟨k, hk, hlt, heq⟩
        cases k with
        | zero =>
          rw [Nat.add_zero] at hlt
          omega
        | succ m =>
          refine ⟨m, by omega, ?_, ?_⟩
          · have hidx : i + 1 + m = i + (m + 1) := by omega
            rw [hidx]
            exact hlt
          · intro j hj
            have hidx : i + 1 + j = i + (j + 1) := by omega
            rw [hidx]
            exact heq (j + 1) (by omega)
    · have hnlt1 : ¬ cur.getD i 0 < lat.getD i 0 := by omega
      rw [if_neg hnlt1, if_pos h1]
      constructor
      · intro hfalse
        exact absurd hfalse (by simp)
      · rintro ⟨k, hk, hlt, heq⟩
        cases k with
        | zero =>
          rw [Nat.add_zero] at hlt
          omega
        | succ m =>
          have := heq 0 (Nat.succ_pos m)
          rw [Nat.add_zero] at this
          omega

/-- Comparator characterization: `isNewerVersion a b` holds exactly when, comparing the parsed segment
sequences zero-padded to a common length, the first differing index has a
strictly larger `b` segment. -/
theorem isNewerVersion_true_iff (a b : String) :
    VersionUtils.isNewerVersion a b = true ↔
      ∃ k, (VersionUtils.parseVersion a).getD k 0 < (VersionUtils.parseVersion b).getD k 0 ∧
        ∀ j, j < k →
          (VersionUtils.parseVersion a).getD j 0 = (VersionUtils.parseVersion b).getD j 0 := by
  unfold VersionUtils.isNewerVersion
  rw [isNewerLoop_true_iff]
  constructor
  · rintro ⟨k, -, hlt, heq⟩
    exact ⟨k, by simpa using hlt, fun j hj => by simpa using heq j hj⟩
  · rintro ⟨k, hlt, heq⟩
    refine ⟨k, ?_, by simpa using hlt, fun j hj => by simpa using heq j hj⟩
    by_contra hk
    push_neg at hk
    rw [List.getD_eq_default, List.getD_eq_default] at hlt
    · exact absurd hlt (lt_irrefl 0)
    · exact le_trans (le_max_right _ _) hk
    · exact le_trans (le_max_left _ _) hk

/-- A version string is never strictly newer than itself. -/
theorem isNewerVersion_self_false (a : String) :
    VersionUtils.isNewerVersion a a = false := by
  cases hh : VersionUtils.isNewerVersion a a
  · rfl
  · obtain ⟨k, hlt, -⟩ := (isNewerVersion_true_iff a a).1 hh
    exact absurd hlt (lt_irrefl _)

/-- C3, counterexample.  The source normalization is not the one the claim
describes: `parseVersion` removes only a single leading literal `v`
(`replace(/^v/, '')`), so `"vv2"` parses to `[0]` (the segment `"v2"` is
`NaN || 0`), whereas stripping the whole leading non-numeric prefix as the
claim states parses it to `[2]`.  At `(current, candidate) = ("1.0", "vv2")`
the source comparator answers `false` while the claimed normalization
answers `true`. -/
theorem c3_counterexample :
    VersionUtils.isNewerVersion "1.0" "vv2" = false ∧
    isNewerVersionSpecText "1.0" "vv2" = true ∧
    VersionUtils.parseVersion "vv2" = [0] ∧
    parseVersionSpecText "vv2" = [2] := by decide

/-- C3, amended: `isNewerVersion` strips a single leading `v` character,
splits on `.`, parses each segment as `parseInt(seg, 10) || 0` (signed
longest digit prefix, `0` when fully non-numeric or missing), and compares
segment-by-segment numerically with zero-padding to the longer length;
`isNewer(a, a)` is always false, `isNewer("1.2.0", "1.2")` is false,
`isNewer("0.9", "0.10")` is true, and the comparator is a total function
(no input raises). -/
theorem c3_version_comparator :
    (∀ a : String, VersionUtils.isNewerVersion a a = false) ∧
    VersionUtils.isNewerVersion "1.2.0" "1.2" = false ∧
    VersionUtils.isNewerVersion "0.9" "0.10" = true ∧
    (∀ a b : String,
      VersionUtils.isNewerVersion a b = true ↔
        ∃ k, (VersionUtils.parseVersion a).getD k 0 <
            (VersionUtils.parseVersion b).getD k 0 ∧
          ∀ j, j < k →
            (VersionUtils.parseVersion a).getD j 0 =
              (VersionUtils.parseVersion b).getD j 0) :=
  ⟨isNewerVersion_self_false, by decide, by decide, isNewerVersion_true_iff⟩

/-- C3, witness: the amended comparator contract evaluated at concrete
version strings. -/
theorem c3_witness :
    VersionUtils.isNewerVersion "v1.2.3" "v1.2.3" = false ∧
    VersionUtils.isNewerVersion "0.9" "0.10" = true :=
  ⟨c3_version_comparator.1 "v1.2.3", c3_version_comparator.2.2.1⟩

/-- Every zero-padded segment of the fallback version `"0.0.0"` is `0`. -/
theorem parseVersion_zero_getD (k : Nat) :
    (VersionUtils.parseVersion "0.0.0").getD k 0 = 0 := by
  have h : VersionUtils.parseVersion "0.0.0" = [0, 0, 0] := by decide
  rw [h]
  match k with
  | 0 => rfl
  | 1 => rfl
  | 2 => rfl
  | n + 3 => rfl

/-- C10, counterexample.  Segments parse with `parseInt`, which accepts a
sign, so a release tagged `"-1.2"` normalizes to `[-1, 2]`: it has a
positive segment (`2`), yet against the fallback version `"0.0.0"` the
comparator stops at the first segment (`-1 < 0`) and answers `false`, and
`checkForUpdates` transitions to `idle`, not `available`. -/
theorem c10_counterexample :
    R1.getCurrentVersion none = "0.0.0" ∧
    VersionUtils.parseVersion "-1.2" = [-1, 2] ∧
    (2 : Int) ∈ VersionUtils.parseVersion "-1.2" ∧ (0 : Int) < 2 ∧
    VersionUtils.isNewerVersion "0.0.0" "-1.2" = false ∧
    (R1.checkForUpdates (R1.getCurrentVersion none) (R1.FetchResult.ok
        { tag_name := "-1.2", name := "r", published_at := "2025-01-02"
          body := "notes", html_url := "https://example.com/r", assets := [] })).state =
      R1.UpdaterState.idle := by decide

/-- C10, amended: if reading `package.json` fails at construction the
running version falls back to `"0.0.0"`, and every subsequent
`checkForUpdates` classifies a remote release as newer — transitioning to
`available` — exactly when the first nonzero segment of its normalized
version is positive. -/
theorem c10_zero_version_fallback :
    R1.getCurrentVersion none = "0.0.0" ∧
    (∀ tag : String,
      (∃ i, 0 < (VersionUtils.parseVersion tag).getD i 0 ∧
        ∀ j, j < i → (VersionUtils.parseVersion tag).getD j 0 = 0) →
      VersionUtils.isNewerVersion "0.0.0" tag = true) ∧
    (∀ r : R1.GitHubRelease,
      (∃ i, 0 < (VersionUtils.parseVersion r.tag_name).getD i 0 ∧
        ∀ j, j < i → (VersionUtils.parseVersion r.tag_name).getD j 0 = 0) →
      (R1.checkForUpdates (R1.getCurrentVersion none) (R1.FetchResult.ok r)).state =
        R1.UpdaterState.available (R1.buildUpdateInfo r)) := by
  have key : ∀ tag : String,
      (∃ i, 0 < (VersionUtils.parseVersion tag).getD i 0 ∧
        ∀ j, j < i → (VersionUtils.parseVersion tag).getD j 0 = 0) →
      VersionUtils.isNewerVersion "0.0.0" tag = true := by
    intro tag ⟨i, hpos, hzero⟩
    rw [isNewerVersion_true_iff]
    refine ⟨i, ?_, ?_⟩
    · rw [parseVersion_zero_getD]
      exact hpos
    · intro j hj
      rw [parseVersion_zero_getD, hzero j hj]
  refine ⟨rfl, key, ?_⟩
  intro r hr
  show (R1.checkForUpdates "0.0.0" (R1.FetchResult.ok r)).state = _
  simp only [R1.checkForUpdates]
  rw [if_pos (key r.tag_name hr)]

/-- C10, witness: the amended classification at the concrete tag
`"1.0.0"`. -/
theorem c10_witness :
    VersionUtils.isNewerVersion "0.0.0" "1.0.0" = true :=
  c10_zero_version_fallback.2.1 "1.0.0"
    ⟨0, by decide, fun j hj => absurd hj (Nat.not_lt_zero j)⟩

/-! ## State exclusivity -/

/-- C1, counterexample.  In the boolean-flag revision the broadcast
`UpdateStatus` is not a tagged union: after a completed download a manual
`checkForUpdates` leaves `downloaded = true` while setting
`checking = true`, so a reachable broadcast state has two lifecycle
conditions true simultaneously. -/
theorem c1_counterexample :
    (EH.runEvents EH.initialStatus c1BadTrace).checking = true ∧
    (EH.runEvents EH.initialStatus c1BadTrace).downloaded = true := by decide

/-- C1, amended: for the tagged-union representation
(`UpdaterState` in `src/shared/constants.ts`) every state value carries
exactly one of the six lifecycle tags, by construction; the boolean-flag
revision does not maintain this exclusivity. -/
theorem c1_tagged_union_exclusive :
    ∀ s : SC.UpdaterState,
      SC.statusTags.count s.statusTag = 1 ∧ s.statusTag ∈ SC.statusTags := by
  intro s
  cases s with
  | idle => exact ⟨by decide, by decide⟩
  | checking => exact ⟨by decide, by decide⟩
  | available info =>
    exact show SC.statusTags.count "available" = 1 ∧ "available" ∈ SC.statusTags by decide
  | downloading progress info =>
    exact show SC.statusTags.count "downloading" = 1 ∧ "downloading" ∈ SC.statusTags by decide
  | downloaded info =>
    exact show SC.statusTags.count "downloaded" = 1 ∧ "downloaded" ∈ SC.statusTags by decide
  | error e =>
    exact show SC.statusTags.count "error" = 1 ∧ "error" ∈ SC.statusTags by decide

/-! ## Failure containment -/

/-- C2, counterexample.  `installUpdate` wraps `quitAndInstall` in no
`try`/`catch`: a failure of the underlying transport propagates to the
caller unchanged instead of being converted into an error state plus a
`success: false` envelope. -/
theorem c2_counterexample :
    EH.installUpdate (Except.error "quitAndInstall failed") =
      Except.error "quitAndInstall failed" ∧
    EH.installUpdate (Except.error "quitAndInstall failed") ≠ Except.ok () :=
  ⟨rfl, fun h => nomatch h⟩

/-- C2, amended: `checkForUpdates` of the GitHub-API revision catches every
fetch failure, transitions to the `error` state carrying the message,
returns a `success: false` envelope with that message, and does not persist
`lastUpdateCheck`; `downloadUpdate` of the event revision catches failures
and records the message in the broadcast status (returning no envelope);
`installUpdate`, however, performs no catch — its result is exactly the
underlying `quitAndInstall` outcome, so a transport throw escapes to the
caller. -/
theorem c2_failure_handling :
    (∀ currentVersion msg : String,
      (R1.checkForUpdates currentVersion (R1.FetchResult.throws msg)).state =
          R1.UpdaterState.error msg ∧
      (R1.checkForUpdates currentVersion (R1.FetchResult.throws msg)).success = false ∧
      (R1.checkForUpdates currentVersion (R1.FetchResult.throws msg)).error = some msg ∧
      (R1.checkForUpdates currentVersion (R1.FetchResult.throws msg)).savedLastCheck
        = false) ∧
    (∀ (s : EH.UpdateStatus) (msg : String),
      EH.downloadUpdate s (Except.error msg) = { s with error := some msg }) ∧
    (∀ outcome : Except String Unit, EH.installUpdate outcome = outcome) :=
  ⟨fun _ _ => ⟨rfl, rfl, rfl, rfl⟩, fun _ _ => rfl, fun _ => rfl⟩

/-! ## Retry policy -/

/-- C4, counterexample.  After the retry cap is reached a manual
`checkForUpdates` call does not reset `retryCount` to 0: it stays at 3 (the
counter is reset only by a successful check outcome). -/
theorem c4_counterexample :
    (EH.checkForUpdates (EH.onError (EH.onError (EH.onError (EH.onError
        EH.initialStatus "e1").status "e2").status "e3").status "e4").status
      true).status.retryCount = 3 ∧
    (EH.checkForUpdates (EH.onError (EH.onError (EH.onError (EH.onError
        EH.initialStatus "e1").status "e2").status "e3").status "e4").status
      true).status.retryCount ≠ 0 := by decide

/-- C4, amended: from `retryCount = 0` three consecutive transport errors
set `retryCount` to 1, 2, 3, each scheduling one automatic retry after the
fixed `RETRY_DELAY = 5000` ms backoff; a fourth error schedules no retry
and leaves the error message in place; a manual `checkForUpdates` call
leaves `retryCount` unchanged, and the counter resets to 0 only when a
check completes successfully (here: the `update-not-available` outcome). -/
theorem c4_retry_cap (m1 m2 m3 m4 : String) :
    (EH.onError EH.initialStatus m1).status.retryCount = 1 ∧
    (EH.onError EH.initialStatus m1).scheduledRetryDelay = some EH.RETRY_DELAY ∧
    (EH.onError EH.initialStatus m1).status.error = some (EH.retryMessage 1) ∧
    (EH.onError (EH.onError EH.initialStatus m1).status m2).status.retryCount = 2 ∧
    (EH.onError (EH.onError EH.initialStatus m1).status m2).scheduledRetryDelay =
      some EH.RETRY_DELAY ∧
    (EH.onError (EH.onError (EH.onError EH.initialStatus m1).status m2).status
      m3).status.retryCount = 3 ∧
    (EH.onError (EH.onError (EH.onError EH.initialStatus m1).status m2).status
      m3).scheduledRetryDelay = some EH.RETRY_DELAY ∧
    (EH.onError (EH.onError (EH.onError (EH.onError EH.initialStatus m1).status
      m2).status m3).status m4).status.retryCount = 3 ∧
    (EH.onError (EH.onError (EH.onError (EH.onError EH.initialStatus m1).status
      m2).status m3).status m4).scheduledRetryDelay = none ∧
    (EH.onError (EH.onError (EH.onError (EH.onError EH.initialStatus m1).status
      m2).status m3).status m4).status.error = some m4 ∧
    EH.RETRY_DELAY = 5000 ∧ EH.MAX_RETRY_ATTEMPTS = 3 ∧
    (EH.checkForUpdates (EH.onError (EH.onError (EH.onError (EH.onError
        EH.initialStatus m1).status m2).status m3).status m4).status
      true).status.retryCount = 3 ∧
    (EH.onUpdateNotAvailable (EH.checkForUpdates (EH.onError (EH.onError
        (EH.onError (EH.onError EH.initialStatus m1).status m2).status m3).status
        m4).status true).status).retryCount = 0 :=
  ⟨rfl, rfl, rfl, rfl, rfl, rfl, rfl, rfl, rfl, rfl, rfl, rfl, rfl, rfl⟩

/-! ## Rate limiting -/

/-- C5, confirmed: the automatic startup check is rate-limited against the
persisted last-check timestamp with a 24-hour minimum interval.  With the
auto policy enabled, a last check 1 hour ago arms no check at all (no
remote call), while a last check 25 hours ago arms the 10-second startup
check. -/
theorem c5_rate_limiting (now : Int) :
    EH.scheduleStartupCheck true now (now - hourMs) = none ∧
    EH.scheduleStartupCheck true now (now - 25 * hourMs) = some EH.STARTUP_CHECK_DELAY ∧
    EH.CHECK_INTERVAL_24H = 24 * hourMs := by
  refine ⟨?_, ?_, by decide⟩
  · have h : ¬ EH.CHECK_INTERVAL_24H ≤ now - (now - hourMs) := by
      simp only [EH.CHECK_INTERVAL_24H, hourMs]
      omega
    simp [EH.scheduleStartupCheck, EH.shouldCheckForUpdates, h]
    decide
  · have h : EH.CHECK_INTERVAL_24H ≤ now - (now - 25 * hourMs) := by
      simp only [EH.CHECK_INTERVAL_24H, hourMs]
      omega
    simp [EH.scheduleStartupCheck, EH.shouldCheckForUpdates, h]
    decide

/-! ## No-op while checking -/

/-- C6, confirmed: a `checkForUpdates` call made while the status is
already `checking` returns immediately — the broadcast status (including
`retryCount`) is unchanged and no remote call is issued. -/
theorem c6_check_noop_while_checking (s : EH.UpdateStatus) (networkOk : Bool)
    (h : s.checking = true) :
    EH.checkForUpdates s networkOk = { status := s, remoteCheckIssued := false } := by
  simp [EH.checkForUpdates, h]

/-- C6, witness: the no-op at a concrete in-flight status. -/
theorem c6_witness :
    (EH.onCheckingForUpdate EH.initialStatus).checking = true ∧
    EH.checkForUpdates (EH.onCheckingForUpdate EH.initialStatus) true =
      { status := EH.onCheckingForUpdate EH.initialStatus, remoteCheckIssued := false } :=
  ⟨by decide, c6_check_noop_while_checking _ true (by decide)⟩

/-! ## Progress publication -/

/-- Monotonicity of `Math.round`. -/
theorem jsRound_mono {p q : ℚ} (h : p ≤ q) : jsRound p ≤ jsRound q := by
  unfold jsRound
  exact Int.floor_le_floor (by linarith)

/-- Range preservation of `Math.round` on a percentage in `[0, 100]`. -/
theorem jsRound_mem_range {p : ℚ} (h0 : 0 ≤ p) (h100 : p ≤ 100) :
    0 ≤ jsRound p ∧ jsRound p ≤ 100 := by
  unfold jsRound
  constructor
  · rw [Int.le_floor]
    push_cast
    linarith
  · have h2 : ⌊p + 1 / 2⌋ < 101 := Int.floor_lt.2 (by push_cast; linarith)
    omega

/-- C7, confirmed: the `download-progress` handler publishes
`Math.round(percent)` as an integer and marks the status as downloading;
within one download episode in which the transport reports percentages in
`[0, 100]` in non-decreasing order, every published value is an integer in
`[0, 100]` and the published sequence is non-decreasing. -/
theorem c7_progress_monotone_bounded (percents : List ℚ)
    (hrange : ∀ p ∈ percents, 0 ≤ p ∧ p ≤ 100)
    (hmono : percents.Pairwise (· ≤ ·)) :
    (∀ (s : EH.UpdateStatus) (p : ℚ),
      (EH.onDownloadProgress s p).progress = some (jsRound p) ∧
      (EH.onDownloadProgress s p).downloading = true) ∧
    (∀ q ∈ EH.publishedProgress percents, 0 ≤ q ∧ q ≤ 100) ∧
    (EH.publishedProgress percents).Pairwise (· ≤ ·) := by
  refine ⟨fun s p => ⟨rfl, rfl⟩, ?_, ?_⟩
  · intro q hq
    rw [EH.publishedProgress, List.mem_map] at hq
    obtain ⟨p, hp, rfl⟩ := hq
    exact jsRound_mem_range (hrange p hp).1 (hrange p hp).2
  · exact List.Pairwise.map jsRound (fun a b hab => jsRound_mono hab) hmono

/-- C7, witness: the published sequence for transport reports 0, 50, 100. -/
theorem c7_witness :
    (EH.publishedProgress [0, 50, 100]).Pairwise (· ≤ ·) :=
  (c7_progress_monotone_bounded [0, 50, 100] (by decide) (by decide)).2.2

/-! ## Release-notes formatting -/

/-- The rendered list never exceeds three preview entries plus one
synthesized trailing entry. -/
theorem renderNotesList_length_le (notes : List String) :
    (EH.renderNotesList notes).length ≤ 4 := by
  unfold EH.renderNotesList
  by_cases h0 : 0 < notes.length
  · rw [if_pos h0]
    by_cases h3 : 3 < notes.length
    · rw [if_pos h3]
      simp only [List.length_append, List.length_map, List.length_take,
        List.length_singleton]
      omega
    · rw [if_neg h3]
      simp only [List.append_nil, if_neg h3, List.length_map, List.length_take]
      omega
  · rw [if_neg h0]
    simp

/-- With more than three entries the rendering is the three truncated
preview entries plus the `+N more changes...` entry. -/
theorem renderNotesList_long (notes : List String) (h : 3 < notes.length) :
    EH.renderNotesList notes =
      (notes.take 3).map EH.truncateNote ++
        ["+" ++ toString (notes.length - 3) ++ " more changes..."] := by
  unfold EH.renderNotesList
  rw [if_pos (by omega), if_pos h]

/-- With at most three entries the rendering is just the truncated
entries. -/
theorem renderNotesList_short (notes : List String) (h : notes.length ≤ 3) :
    EH.renderNotesList notes = notes.map EH.truncateNote := by
  unfold EH.renderNotesList
  by_cases h0 : 0 < notes.length
  · rw [if_pos h0, if_neg (by omega), List.take_of_length_le h, List.append_nil]
  · have hnil : notes = [] := List.length_eq_zero.1 (by omega)
    rw [if_neg h0, hnil]
    rfl

/-- C8, confirmed: for every raw notes payload the displayed list has at
most three preview entries plus one synthesized `+N more changes...`
trailing entry (present exactly when the parsed notes have more than three
entries), and a missing or empty body parses to exactly one fallback entry
referencing the available version.  All functions involved are total: no
input raises. -/
theorem c8_release_notes_formatting (body : Option String) (version : String) :
    (EH.renderNotesList (EH.parseReleaseNotes body version)).length ≤ 4 ∧
    (3 < (EH.parseReleaseNotes body version).length →
      EH.renderNotesList (EH.parseReleaseNotes body version) =
        ((EH.parseReleaseNotes body version).take 3).map EH.truncateNote ++
          ["+" ++ toString ((EH.parseReleaseNotes body version).length - 3) ++
            " more changes..."]) ∧
    ((EH.parseReleaseNotes body version).length ≤ 3 →
      EH.renderNotesList (EH.parseReleaseNotes body version) =
        (EH.parseReleaseNotes body version).map EH.truncateNote) ∧
    ((body = none ∨ body = some "") →
      EH.parseReleaseNotes body version = EH.fallbackNotes version) ∧
    (EH.fallbackNotes version).length = 1 := by
  refine ⟨renderNotesList_length_le _,
    renderNotesList_long _,
    renderNotesList_short _, ?_, rfl⟩
  rintro (rfl | rfl)
  · rfl
  · rfl

/-- C8, witness: a five-line body renders as three preview lines plus a
`+2 more changes...` entry, and a missing body yields the single fallback
entry. -/
theorem c8_witness :
    EH.parseReleaseNotes none "2.0" = EH.fallbackNotes "2.0" ∧
    EH.renderNotesList (EH.parseReleaseNotes
        (some "- one\n- two\n- three\n- four\n- five") "2.0") =
      ["- one", "- two", "- three", "+2 more changes..."] :=
  ⟨(c8_release_notes_formatting none "2.0").2.2.2.1 (Or.inl rfl), by decide⟩

/-! ## Deferral semantics -/

/-- C9, counterexample.  A successful download does not reset
`updateDeferred`: the `update-downloaded` handler persists only
`lastUpdateCheck`, so a previously set deferral flag survives the download
of a new version. -/
theorem c9_counterexample :
    ((EH.onUpdateDownloadedPersist
        (EH.onUpdateAvailable (EH.onCheckingForUpdate EH.initialStatus)
          "2.0.0" "2025-01-02" ["notes"])
        { updateDeferred := true, lastUpdateCheck := 0 } 999
        "2.0.0" "2025-01-02" (some "update.zip")).2).updateDeferred = true ∧
    ((EH.onUpdateDownloadedPersist
        (EH.onUpdateAvailable (EH.onCheckingForUpdate EH.initialStatus)
          "2.0.0" "2025-01-02" ["notes"])
        { updateDeferred := true, lastUpdateCheck := 0 } 999
        "2.0.0" "2025-01-02" (some "update.zip")).2).lastUpdateCheck = 999 := by decide

/-- C9, amended: calling `deferUpdate` while the status is downloaded sets
`updateDeferred = true` in the persisted policy, leaves the broadcast
status unchanged and touches no other persisted field; a subsequent
successful download leaves `updateDeferred` unchanged (it is never reset to
false by the `update-downloaded` handler). -/
theorem c9_defer_semantics (p : PolicySettings) (s : EH.UpdateStatus)
    (_h : s.downloaded = true) :
    (EH.deferUpdate p s).1.updateDeferred = true ∧
    (EH.deferUpdate p s).2 = s ∧
    (EH.deferUpdate p s).1.lastUpdateCheck = p.lastUpdateCheck ∧
    ∀ (now : Int) (v d : String) (f : Option String),
      ((EH.onUpdateDownloadedPersist s p now v d f).2).updateDeferred =
        p.updateDeferred :=
  ⟨rfl, rfl, rfl, fun _ _ _ _ => rfl⟩

/-- C9, witness: the deferral write at a concrete downloaded status. -/
theorem c9_witness :
    ({ EH.initialStatus with downloaded := true } : EH.UpdateStatus).downloaded = true ∧
    (EH.deferUpdate { updateDeferred := false, lastUpdateCheck := 0 }
        { EH.initialStatus with downloaded := true }).1.updateDeferred = true :=
  ⟨by decide, (c9_defer_semantics { updateDeferred := false, lastUpdateCheck := 0 }
      { EH.initialStatus with downloaded := true } (by decide)).1⟩
